import Mathlib

/-!
Shallow embedding of the quantaworker client library
(src/quantaworker/__init__.py): schema model (Parameter, ValueType,
Column), invocation and result models (Invocation, Anomaly, DataSample),
and the run loop with its HTTP upload operations.  Python dictionaries,
JSON values and dataframes are embedded as explicit inductive types;
fallible Python code is embedded as Except over a small error type.
-/

namespace QuantaWorker

/-- Python exceptions that the embedded code can raise. -/
inductive PyError where
  | typeError
  | valueError (msg : String)
  | keyError
  | indexError
  | attributeError
  | timeoutError
deriving Repr, DecidableEq

/-- Embedding of the Python runtime values that flow through the library:
scalars, lists, string-keyed dicts, pandas timestamps, and class instances
(which json.dumps cannot serialize). -/
inductive PyVal where
  | pnone
  | pbool (b : Bool)
  | pint (n : Int)
  | pfloat (q : Rat)
  | pstr (s : String)
  | ptimestamp (year month day hour minute second : Nat)
  | plist (xs : List PyVal)
  | pdict (xs : List (String × PyVal))
  | pobj (cls : String) (fields : List (String × PyVal))
deriving Repr

/-- json.dumps serializes none, bool, int, float, str, list and dict;
a class instance raises TypeError.  This predicate holds exactly on the
serializable values. -/
def PyVal.jsonable : PyVal → Bool
  | .pnone => true
  | .pbool _ => true
  | .pint _ => true
  | .pfloat _ => true
  | .pstr _ => true
  | .ptimestamp _ _ _ _ _ _ => false
  | .plist [] => true
  | .plist (x :: xs) => x.jsonable && (PyVal.plist xs).jsonable
  | .pdict [] => true
  | .pdict ((_, v) :: xs) => v.jsonable && (PyVal.pdict xs).jsonable
  | .pobj _ _ => false

/-- Embedding of json.dumps: succeeds (returning the serialized value,
represented by the value itself) precisely when the value is within the
JSON-serializable subset, and raises TypeError otherwise. -/
def jsonDumps (v : PyVal) : Except PyError PyVal :=
  if v.jsonable then .ok v else .error .typeError

/-- Dict lookup, as Python d[k]: KeyError when the key is absent. -/
def pyLookup (xs : List (String × PyVal)) (k : String) : Except PyError PyVal :=
  match xs.lookup k with
  | some v => .ok v
  | none => .error .keyError

/-- The class-name constants used as type tags. -/
def TYPE_BOOL : String := "java.lang.Boolean"

def TYPE_INT : String := "java.lang.Long"

def TYPE_FLOAT : String := "java.lang.Double"

def TYPE_STR : String := "java.lang.String"

def TYPE_TIMESTAMP : String := "java.time.Instant"

/-- Is c an ASCII digit? -/
def isDigitChar (c : Char) : Bool := c.isDigit

/-- Numeric value of a digit string (digits only, most significant first). -/
def digitsToNat (s : List Char) : Nat :=
  s.foldl (fun acc c => acc * 10 + (c.toNat - 48)) 0

/-- Embedding of the Python builtin int(str): optional sign followed by a
non-empty digit string parses to an integer; anything else raises
ValueError.  (Surrounding whitespace and underscores are out of scope of
this model.) -/
def pyIntOfString (s : String) : Except PyError Int :=
  let cs := s.toList
  match cs with
  | '-' :: rest =>
      if !rest.isEmpty && rest.all isDigitChar then .ok (-(digitsToNat rest : Int))
      else .error (.valueError s)
  | '+' :: rest =>
      if !rest.isEmpty && rest.all isDigitChar then .ok (digitsToNat rest : Int)
      else .error (.valueError s)
  | _ =>
      if !cs.isEmpty && cs.all isDigitChar then .ok (digitsToNat cs : Int)
      else .error (.valueError s)

/-- Decimal numeral (integer part, fraction digits) as a rational. -/
def decimalToRat (intPart : List Char) (fracPart : List Char) : Rat :=
  (digitsToNat intPart : Rat) + (digitsToNat fracPart : Rat) / ((10 : Rat) ^ fracPart.length)

/-- Embedding of the Python builtin float(str) on plain decimal numerals:
optional sign, digits, optional decimal point with digits; at least one
digit overall.  Other shapes (exponents, inf, nan) raise ValueError in
this model. -/
def pyFloatOfString (s : String) : Except PyError Rat :=
  let parse : List Char → Except PyError Rat := fun cs =>
    let intPart := cs.takeWhile isDigitChar
    let rest := cs.dropWhile isDigitChar
    match rest with
    | [] =>
        if !intPart.isEmpty then .ok (decimalToRat intPart [])
        else .error (.valueError s)
    | '.' :: frac =>
        if frac.all isDigitChar && (!intPart.isEmpty || !frac.isEmpty) then
          .ok (decimalToRat intPart frac)
        else .error (.valueError s)
    | _ => .error (.valueError s)
  match s.toList with
  | '-' :: rest => (parse rest).map (fun q => -q)
  | '+' :: rest => parse rest
  | cs => parse cs

/-- Embedding of _auto_cast: the Boolean tag applies Python bool() to the
string (truthy exactly when non-empty), the Double tag applies float(),
the Long tag applies int(), and any other tag passes the raw string
through unchanged. -/
def autoCast (value : String) (valueType : String) : Except PyError PyVal :=
  if valueType = "java.lang.Boolean" then
    .ok (.pbool (value != ""))
  else if valueType = "java.lang.Double" then
    (pyFloatOfString value).map .pfloat
  else if valueType = "java.lang.Long" then
    (pyIntOfString value).map .pint
  else
    .ok (.pstr value)

/-- Embedding of ValueType: column type representation (class name tag,
optional format string, nullable flag). -/
structure ValueType where
  className : String
  format : Option String
  nullable : Bool
deriving Repr, DecidableEq

/-- Embedding of Column: name, description, position index (sentinel -1
when unset), value type and role tag. -/
structure Column where
  name : String
  description : String
  index : Int
  valueType : ValueType
  columnType : String
deriving Repr, DecidableEq

/-- Column.input: factory for an input column; the index is left at the
sentinel -1, to be resolved at registration time. -/
def Column.input (name description : String) (valueType : ValueType) : Column :=
  { name := name, description := description, index := -1,
    valueType := valueType, columnType := "input" }

/-- Column.output: factory for an output column with an explicit index. -/
def Column.output (name description : String) (valueType : ValueType) (index : Int) : Column :=
  { name := name, description := description, index := index,
    valueType := valueType, columnType := "output" }

/-- The wire representation Column.dict produces (the id field is the
constant 0). -/
structure ColumnDict where
  id : Int
  name : String
  description : String
  index : Int
  valueType : ValueType
  columnType : String
deriving Repr, DecidableEq

/-- Embedding of Column.dict: when the own index is the sentinel -1 the
supplied fallback replaces it, and a missing fallback raises ValueError;
otherwise the own index is used as is. -/
def Column.dict (c : Column) (indexFallback : Option Int) : Except PyError ColumnDict :=
  let effectiveIndex := c.index
  if effectiveIndex = -1 then
    match indexFallback with
    | none => .error (.valueError ("Column " ++ c.name ++ " has invalid index (" ++ toString c.index ++ ")"))
    | some fb =>
        .ok { id := 0, name := c.name, description := c.description, index := fb,
              valueType := c.valueType, columnType := c.columnType }
  else
    .ok { id := 0, name := c.name, description := c.description, index := c.index,
          valueType := c.valueType, columnType := c.columnType }

/-- Embedding of QuantaWorker._auto_gen_indices over the declared column
list: filter the input columns and the output columns separately, then
serialize each input with its enumeration position as fallback followed by
each output with its own enumeration position as fallback. -/
def autoGenIndices (columns : List Column) : Except PyError (List ColumnDict) := do
  let inputColumns := columns.filter (fun c => c.columnType = "input")
  let outputColumns := columns.filter (fun c => c.columnType = "output")
  let ins ← inputColumns.enum.mapM (fun p => p.2.dict (some (p.1 : Int)))
  let outs ← outputColumns.enum.mapM (fun p => p.2.dict (some (p.1 : Int)))
  return ins ++ outs

/-- Left-pad a natural number with zeros to the given width. -/
def natPad (n : Nat) (width : Nat) : String :=
  let s := toString n
  String.mk (List.replicate (width - s.length) '0') ++ s

/-- Render a rational that came from a decimal numeral the way Python
str() renders the corresponding float: sign, integer part, a point, and
the fraction digits with trailing zeros dropped but at least one digit
kept.  Denominators that are not factors of a power of ten fall back to a
fraction rendering (such values do not arise from decimal input). -/
def floatToStr (q : Rat) : String :=
  let sign := if q.num < 0 then "-" else ""
  match (List.range 40).find? (fun k => q.den ∣ 10 ^ k) with
  | some k =>
      let n := q.num.natAbs * (10 ^ k / q.den)
      let ip := n / 10 ^ k
      let fp := n % 10 ^ k
      let fracDigits := (natPad fp k).toList
      let trimmed := (fracDigits.reverse.dropWhile (fun c => c = '0')).reverse
      let fracStr := if trimmed.isEmpty then "0" else String.mk trimmed
      sign ++ toString ip ++ "." ++ fracStr
  | none => sign ++ toString q.num.natAbs ++ "/" ++ toString q.den

mutual

/-- Embedding of the Python builtin str() on runtime values (container
values are rendered without Python quoting, which no embedded call site
exercises). -/
def pyStr : PyVal → String
  | .pnone => "None"
  | .pbool true => "True"
  | .pbool false => "False"
  | .pint n => toString n
  | .pfloat q => floatToStr q
  | .pstr s => s
  | .ptimestamp y mo d h mi s =>
      natPad y 4 ++ "-" ++ natPad mo 2 ++ "-" ++ natPad d 2 ++ " " ++
        natPad h 2 ++ ":" ++ natPad mi 2 ++ ":" ++ natPad s 2
  | .plist xs => "[" ++ String.intercalate ", " (pyStrList xs) ++ "]"
  | .pdict xs => "\x7b" ++ String.intercalate ", " (pyStrPairs xs) ++ "\x7d"
  | .pobj cls _ => "<" ++ cls ++ " object>"

/-- str() mapped over list elements (helper for pyStr). -/
def pyStrList : List PyVal → List String
  | [] => []
  | x :: xs => pyStr x :: pyStrList xs

/-- str() mapped over dict entries (helper for pyStr). -/
def pyStrPairs : List (String × PyVal) → List String
  | [] => []
  | (_, v) :: xs => pyStr v :: pyStrPairs xs

end

/-- Embedding of .strftime applied with the fixed pattern
yyyy-MM-ddTHH:mm:ssZ: formats a timestamp value; any non-timestamp value
raises AttributeError (it has no strftime). -/
def strftimeIsoZ : PyVal → Except PyError PyVal
  | .ptimestamp y mo d h mi s =>
      .ok (.pstr (natPad y 4 ++ "-" ++ natPad mo 2 ++ "-" ++ natPad d 2 ++ "T" ++
        natPad h 2 ++ ":" ++ natPad mi 2 ++ ":" ++ natPad s 2 ++ "Z"))
  | _ => .error .attributeError

/-- Embedding of a pandas DataFrame: ordered column names and rows of
cells aligned with them. -/
structure DataFrame where
  colNames : List String
  rows : List (List PyVal)
deriving Repr

/-- DataFrame.empty: a dataframe is empty when either axis has length
zero. -/
def DataFrame.empty (df : DataFrame) : Bool :=
  df.rows.isEmpty || df.colNames.isEmpty

/-- Indexing a row Series by column name, as cast[name]: the cell at the
column position, KeyError when the name is not a column. -/
def rowCell (colNames : List String) (row : List PyVal) (name : String) :
    Except PyError PyVal :=
  match colNames.findIdx? (fun n => n = name) with
  | some i =>
      match row.get? i with
      | some v => .ok v
      | none => .error .keyError
  | none => .error .keyError

/-- Wire form of a ValueType, as ValueType.dict. -/
def ValueType.toPyVal (vt : ValueType) : PyVal :=
  .pdict [("className", .pstr vt.className),
          ("format", match vt.format with | some f => .pstr f | none => .pnone),
          ("nullable", .pbool vt.nullable)]

/-- The ColumnDict wire record as a runtime dict value. -/
def ColumnDict.toPyVal (d : ColumnDict) : PyVal :=
  .pdict [("id", .pint d.id), ("name", .pstr d.name),
          ("description", .pstr d.description), ("index", .pint d.index),
          ("valueType", d.valueType.toPyVal), ("columnType", .pstr d.columnType)]

/-- Embedding of InvocationParam: name and raw string value. -/
structure InvocationParam where
  name : String
  value : String
deriving Repr, DecidableEq

/-- Embedding of Invocation: server-assigned id, task-type tag, parameter
list. -/
structure Invocation where
  invocationId : Int
  taskType : String
  parameters : List InvocationParam
deriving Repr, DecidableEq

/-- Read a PyVal as a dict (subscripting a non-dict raises TypeError). -/
def asDict : PyVal → Except PyError (List (String × PyVal))
  | .pdict xs => .ok xs
  | _ => .error .typeError

/-- Read a PyVal as a string. -/
def asStr : PyVal → Except PyError String
  | .pstr s => .ok s
  | _ => .error .typeError

/-- Read a PyVal as an integer. -/
def asInt : PyVal → Except PyError Int
  | .pint n => .ok n
  | _ => .error .typeError

/-- Read a PyVal as a list. -/
def asList : PyVal → Except PyError (List PyVal)
  | .plist xs => .ok xs
  | _ => .error .typeError

/-- Embedding of the Invocation constructor applied to a parsed JSON
body: reads invocationId, task.taskType, and for each element of
parameters its name and value; a missing key raises KeyError. -/
def parseInvocation (body : PyVal) : Except PyError Invocation := do
  let d ← asDict body
  let invocationId ← pyLookup d "invocationId" >>= asInt
  let task ← pyLookup d "task" >>= asDict
  let taskType ← pyLookup task "taskType" >>= asStr
  let paramVals ← pyLookup d "parameters" >>= asList
  let params ← paramVals.mapM (fun p => do
    let pd ← asDict p
    let n ← pyLookup pd "name" >>= asStr
    let v ← pyLookup pd "value" >>= asStr
    return InvocationParam.mk n v)
  return { invocationId := invocationId, taskType := taskType, parameters := params }

/-- Embedding of Anomaly: the six construction-time fields. -/
structure Anomaly where
  start : PyVal
  endField : PyVal
  classification : PyVal
  sample : PyVal
  probability : PyVal
  metadata : PyVal
deriving Repr

/-- The start accessor property: returns the stored start field. -/
def Anomaly.startProperty (a : Anomaly) : PyVal := a.start

/-- The end accessor property: as written in the source it returns the
stored start field, not the stored end field. -/
def Anomaly.endProperty (a : Anomaly) : PyVal := a.start

/-- Anomaly.dict: the wire dict emits each stored field under its own
key, including the stored end field under the end key. -/
def Anomaly.dict (a : Anomaly) : List (String × PyVal) :=
  [("start", a.start), ("end", a.endField), ("classification", a.classification),
   ("sample", a.sample), ("probability", a.probability), ("metadata", a.metadata)]

/-- An Anomaly as the runtime class instance json.dumps receives when the
raw object (not its dict) is serialized. -/
def Anomaly.toPyVal (a : Anomaly) : PyVal :=
  .pobj "Anomaly"
    [("_start", a.start), ("_end", a.endField),
     ("_classification", a.classification), ("_sample", a.sample),
     ("_probability", a.probability), ("_metadata", a.metadata)]

/-- Embedding of DataSample: declared columns plus the sampled data. -/
structure DataSample where
  columns : List Column
  data : DataFrame

/-- An HTTP request the worker submits (method, path below the base URL,
serialized JSON body). -/
structure Request where
  method : String
  path : String
  body : PyVal
deriving Repr

/-- The column list _upload_timeseries_data iterates over: when the
worker declares any columns, the generated dicts restricted to output
columns with index strictly greater than zero, pairing the index value
with the column name for the later key and cell lookups; with no declared
columns, every data column after the first, its name serving as both
index value and name. -/
def seriesColumns (workerColumns : List Column) (df : DataFrame) :
    Except PyError (List (PyVal × String)) :=
  if workerColumns.length > 0 then do
    let gen ← autoGenIndices workerColumns
    return (gen.filter (fun x => x.columnType = "output" && x.index > 0)).map
      (fun x => (PyVal.pint x.index, x.name))
  else
    return (df.colNames.drop 1).map (fun n => (PyVal.pstr n, n))

/-- The responseData list _upload_timeseries_data builds: one record per
row, in row order; the time field is the ds cell formatted with the fixed
ISO pattern when a ds column exists, else the raw first cell; the values
field maps str() of each kept index value to that row's cell for the
column's name. -/
def buildSeriesRecords (workerColumns : List Column) (df : DataFrame) :
    Except PyError (List PyVal) := do
  let columns ← seriesColumns workerColumns df
  df.rows.mapM (fun row => do
    let timestamp ←
      if df.colNames.contains "ds" then do
        let v ← rowCell df.colNames row "ds"
        strftimeIsoZ v
      else
        match row.get? 0 with
        | some v => pure v
        | none => Except.error PyError.indexError
    let values ← columns.mapM (fun kv => do
      let v ← rowCell df.colNames row kv.2
      return (pyStr kv.1, v))
    return PyVal.pdict [("time", timestamp), ("values", PyVal.pdict values)])

/-- Embedding of QuantaWorker._upload_timeseries_data: build the records
and POST them, all rows in one request, to the series-result endpoint. -/
def uploadTimeseriesData (workerColumns : List Column) (df : DataFrame)
    (invocationId : Int) : Except PyError Request := do
  let responseData ← buildSeriesRecords workerColumns df
  let body ← jsonDumps (.plist responseData)
  return { method := "POST",
           path := "/invocations/" ++ toString invocationId ++ "/series-result",
           body := body }

/-- Embedding of QuantaWorker._upload_anomalies: json.dumps is applied to
the list of Anomaly objects themselves and the result is POSTed to the
anomaly-result endpoint. -/
def uploadAnomalies (invocationId : Int) (anomalies : List Anomaly) :
    Except PyError Request := do
  let body ← jsonDumps (.plist (anomalies.map Anomaly.toPyVal))
  return { method := "POST",
           path := "/invocations/" ++ toString invocationId ++ "/anomaly-result",
           body := body }

/-- Embedding of DetectorWorker.invoke after the data fetch: the detect
result is passed to the anomaly upload unconditionally. -/
def detectorInvoke (invocationId : Int) (data : DataFrame)
    (detect : DataFrame → List Anomaly) : Except PyError Request :=
  uploadAnomalies invocationId (detect data)

/-- Embedding of QuantaWorker._upload_data_sample: serialize each declared
column with no index fallback, stringify every cell of every data row,
and POST the columns, data and an errorFlag of false to the data-sample
endpoint. -/
def uploadDataSample (invocationId : Int) (sample : DataSample) :
    Except PyError Request := do
  let columnlist ← sample.columns.mapM (fun c => c.dict none)
  let datalist := sample.data.rows.map (fun row =>
    PyVal.plist (row.map (fun e => PyVal.pstr (pyStr e))))
  let samplePayload := PyVal.pdict
    [("columns", .plist (columnlist.map ColumnDict.toPyVal)),
     ("data", .plist datalist),
     ("errorFlag", .pbool false)]
  let body ← jsonDumps samplePayload
  return { method := "POST",
           path := "/invocations/" ++ toString invocationId ++ "/data-sample",
           body := body }

/-- Embedding of ImportWorker.invoke: branch on the task-type tag; the
IMPORT_SAMPLE tag runs the sample hook and uploads the sample, any other
tag runs the import hook and uploads the table as a time series only when
it is non-empty.  The abstract hooks are parameters; the returned list
holds the requests actually sent. -/
def importInvoke (inv : Invocation) (runSample : List InvocationParam → DataSample)
    (runImport : List InvocationParam → DataFrame) (workerColumns : List Column) :
    Except PyError (List Request) :=
  if inv.taskType = "IMPORT_SAMPLE" then
    (uploadDataSample inv.invocationId (runSample inv.parameters)).map (fun r => [r])
  else
    if !(runImport inv.parameters).empty then
      (uploadTimeseriesData workerColumns (runImport inv.parameters) inv.invocationId).map
        (fun r => [r])
    else
      .ok []

/-- Outcome of one network call: the transport either times out or
delivers a response. -/
inductive NetResult (α : Type) where
  | timeout
  | response (r : α)
deriving Repr

/-- An HTTP response: status code and parsed JSON body. -/
structure HttpResponse where
  statusCode : Nat
  body : PyVal
deriving Repr

/-- A network call at a site with no exception handler: a timeout raises
TimeoutError. -/
def netCall (r : NetResult HttpResponse) : Except PyError HttpResponse :=
  match r with
  | .timeout => .error .timeoutError
  | .response resp => .ok resp

/-- Embedding of QuantaWorker._register as a transition on the EXIT flag:
a transport timeout sets the flag (fatal); any response, whatever its
status (500 meaning already registered is only logged), leaves the flag
unchanged and raises nothing. -/
def register (resp : NetResult HttpResponse) (exitFlag : Bool) : Bool :=
  match resp with
  | .timeout => true
  | .response _ => exitFlag

/-- What one poll produced: a skipped cycle (recording whether
registration was re-run) or a 200 response handed to the Invocation
constructor. -/
inductive PollOutcome where
  | skip (reRegistered : Bool)
  | success (parsed : Except PyError Invocation)
deriving Repr

/-- Embedding of QuantaWorker._next_invocation: a transport timeout and
the 401, 404 and other non-200 statuses each yield no invocation without
touching registration; 403 re-runs registration (whose own outcome may
set the EXIT flag) and yields no invocation; 200 hands the body to the
Invocation constructor. -/
def nextInvocation (pollResp : NetResult HttpResponse)
    (regResp : NetResult HttpResponse) (exitFlag : Bool) : Bool × PollOutcome :=
  match pollResp with
  | .timeout => (exitFlag, .skip false)
  | .response r =>
      if r.statusCode = 401 then (exitFlag, .skip false)
      else if r.statusCode = 403 then (register regResp exitFlag, .skip true)
      else if r.statusCode = 404 then (exitFlag, .skip false)
      else if r.statusCode ≠ 200 then (exitFlag, .skip false)
      else (exitFlag, .success (parseInvocation r.body))

/-- The environment's behavior during one loop iteration: whether a
termination signal arrived before the top-of-loop check, the poll
response, the registration response used if the poll returns 403, the two
status-update responses, and the worker's abstract invoke outcome. -/
structure CycleInput where
  signal : Bool
  pollResp : NetResult HttpResponse
  regResp : NetResult HttpResponse
  statusStartResp : NetResult HttpResponse
  invokeResult : Except PyError (List Request)
  statusDoneResp : NetResult HttpResponse

/-- Observable outcome of one completed loop iteration. -/
inductive CycleOutcome where
  | skipped (reRegistered : Bool)
  | dispatched (inv : Invocation) (uploads : List Request)
deriving Repr

/-- One iteration of the run loop body after the sleep: poll; on no
invocation continue; otherwise mark in progress, invoke, mark complete.
The status updates and the invoke have no exception handler, so a timeout
or invoke failure propagates out of the loop. -/
def runCycle (inp : CycleInput) (exitFlag : Bool) :
    Except PyError (Bool × CycleOutcome) :=
  let res := nextInvocation inp.pollResp inp.regResp exitFlag
  match res.2 with
  | .skip rr => .ok (res.1, .skipped rr)
  | .success parsed => do
      let inv ← parsed
      let _ ← netCall inp.statusStartResp
      let uploads ← inp.invokeResult
      let _ ← netCall inp.statusDoneResp
      .ok (res.1, .dispatched inv uploads)

/-- The run loop: while the EXIT flag is unset, run one cycle per element
of the environment schedule; the flag is re-read at the top of every
iteration, so a flag set during a cycle ends the loop before the next
one. -/
def runLoop (exitFlag : Bool) : List CycleInput → Except PyError (List CycleOutcome)
  | [] => .ok []
  | inp :: rest =>
      let flag := exitFlag || inp.signal
      if flag then .ok []
      else do
        let step ← runCycle inp flag
        let outs ← runLoop step.1 rest
        .ok (step.2 :: outs)

/-- Embedding of QuantaWorker.run: register once (starting from an unset
EXIT flag), then enter the poll loop with whatever flag registration left
behind. -/
def run (regResp : NetResult HttpResponse) (cycles : List CycleInput) :
    Except PyError (List CycleOutcome) :=
  runLoop (register regResp false) cycles

/-! Specification-side characterizations used to state refinement
theorems about the registration and upload payloads. -/

/-- The index a column resolves to when serialized at position p of its
role's enumeration: its own index when set, else p. -/
def resolvedIndex (c : Column) (position : Nat) : Int :=
  if c.index = -1 then (position : Int) else c.index

/-- The wire record a column resolves to at position p of its role. -/
def resolvedDict (c : Column) (position : Nat) : ColumnDict :=
  { id := 0, name := c.name, description := c.description,
    index := resolvedIndex c position, valueType := c.valueType,
    columnType := c.columnType }

/-- The input columns of a declaration list, in declaration order. -/
def inputColumnsOf (cols : List Column) : List Column :=
  cols.filter (fun c => c.columnType = "input")

/-- The output columns of a declaration list, in declaration order. -/
def outputColumnsOf (cols : List Column) : List Column :=
  cols.filter (fun c => c.columnType = "output")

/-- The flattened registration column list: resolved input records first,
then resolved output records, each role enumerated from zero. -/
def flattenedColumns (cols : List Column) : List ColumnDict :=
  (inputColumnsOf cols).enum.map (fun p => resolvedDict p.2 p.1) ++
    (outputColumnsOf cols).enum.map (fun p => resolvedDict p.2 p.1)

/-- With a fallback supplied, Column.dict never fails and yields the
resolved record. -/
theorem Column.dict_some (c : Column) (i : Nat) :
    c.dict (some (i : Int)) = .ok (resolvedDict c i) := by
  unfold Column.dict resolvedDict resolvedIndex
  by_cases h : c.index = -1 <;> simp [h]

/-- The accumulator pass of List.mapM, when the step succeeds pointwise,
succeeds with the reversed accumulator followed by the pointwise
results. -/
theorem mapMLoop_ok {α β : Type} (f : α → Except PyError β) (g : α → β) :
    ∀ (xs : List α) (acc : List β), (∀ a ∈ xs, f a = .ok (g a)) →
      List.mapM.loop f xs acc = .ok (acc.reverse ++ xs.map g) := by
  intro xs
  induction xs with
  | nil =>
      intro acc _
      show Except.ok acc.reverse = Except.ok (acc.reverse ++ List.map g [])
      rw [List.map_nil, List.append_nil]
  | cons x t ih =>
      intro acc h
      have hx := h x (List.mem_cons_self x t)
      have ht := ih (g x :: acc) (fun a ha => h a (List.mem_cons_of_mem x ha))
      calc List.mapM.loop f (x :: t) acc
          = f x >>= fun y => List.mapM.loop f t (y :: acc) := rfl
        _ = List.mapM.loop f t (g x :: acc) := by rw [hx]; rfl
        _ = .ok ((g x :: acc).reverse ++ t.map g) := ht
        _ = .ok (acc.reverse ++ (x :: t).map g) := by simp

/-- Mapping a fallible step that succeeds pointwise over a list succeeds
with the pointwise results. -/
theorem mapM_ok {α β : Type} (f : α → Except PyError β) (g : α → β)
    (xs : List α) (h : ∀ a ∈ xs, f a = .ok (g a)) :
    xs.mapM f = .ok (xs.map g) := by
  have := mapMLoop_ok f g xs [] h
  simpa [List.mapM] using this

/-- Members of an enumerated list are members of the list. -/
theorem mem_enum_snd {α : Type} {p : Nat × α} {l : List α} (h : p ∈ l.enum) :
    p.2 ∈ l := by
  rw [List.enum_eq_zip_range] at h
  obtain ⟨i, a⟩ := p
  exact (List.of_mem_zip h).2

/-- _auto_gen_indices always succeeds and equals the flattened column
list. -/
theorem autoGenIndices_eq (cols : List Column) :
    autoGenIndices cols = .ok (flattenedColumns cols) := by
  have h1 := mapM_ok (fun p : Nat × Column => p.2.dict (some (p.1 : Int)))
    (fun p : Nat × Column => resolvedDict p.2 p.1)
    (cols.filter (fun c => c.columnType = "input")).enum
    (fun p _ => Column.dict_some p.2 p.1)
  have h2 := mapM_ok (fun p : Nat × Column => p.2.dict (some (p.1 : Int)))
    (fun p : Nat × Column => resolvedDict p.2 p.1)
    (cols.filter (fun c => c.columnType = "output")).enum
    (fun p _ => Column.dict_some p.2 p.1)
  simp only [List.mapM] at h1 h2
  unfold autoGenIndices
  simp only [List.mapM, h1, h2]
  rfl

/-- C9: _auto_cast applied to a string with the Boolean tag yields true
exactly for non-empty strings (so also for the string false), the Double
and Long tags parse the numeral via float() and int() respectively, and
any other tag passes the raw string through unchanged. -/
theorem autoCast_spec (s t : String) :
    autoCast s TYPE_BOOL = .ok (.pbool (s != ""))
  ∧ (s ≠ "" → autoCast s TYPE_BOOL = .ok (.pbool true))
  ∧ autoCast "false" TYPE_BOOL = .ok (.pbool true)
  ∧ autoCast "" TYPE_BOOL = .ok (.pbool false)
  ∧ autoCast s TYPE_FLOAT = (pyFloatOfString s).map PyVal.pfloat
  ∧ autoCast s TYPE_INT = (pyIntOfString s).map PyVal.pint
  ∧ (t ≠ TYPE_BOOL → t ≠ TYPE_FLOAT → t ≠ TYPE_INT → autoCast s t = .ok (.pstr s)) := by
  refine ⟨rfl, ?_, rfl, rfl, rfl, rfl, ?_⟩
  · intro h
    have hb : (s != "") = true := bne_iff_ne.mpr h
    show Except.ok (PyVal.pbool (s != "")) = Except.ok (PyVal.pbool true)
    rw [hb]
  · intro h1 h2 h3
    simp only [TYPE_BOOL] at h1
    simp only [TYPE_FLOAT] at h2
    simp only [TYPE_INT] at h3
    unfold autoCast
    rw [if_neg h1, if_neg h2, if_neg h3]

/-- C9 witness: evaluating the cast at the concrete quirk input and at a
pass-through tag. -/
theorem autoCast_spec_witness :
    autoCast "false" TYPE_BOOL = .ok (.pbool true)
  ∧ autoCast "x" "java.time.Instant" = .ok (.pstr "x") :=
  ⟨(autoCast_spec "false" "java.time.Instant").2.1 (by decide),
   (autoCast_spec "x" "java.time.Instant").2.2.2.2.2.2
     (by decide) (by decide) (by decide)⟩

/-- C6: serializing a Column whose own index is the sentinel -1 raises a
ValueError when no fallback is supplied and uses the fallback when one
is; any other own index is serialized as is, fallback or not. -/
theorem column_dict_spec (c : Column) (fb : Int) :
    (c.index = -1 →
        c.dict none = .error (.valueError
          ("Column " ++ c.name ++ " has invalid index (" ++ toString c.index ++ ")"))
      ∧ c.dict (some fb) = .ok ⟨0, c.name, c.description, fb, c.valueType, c.columnType⟩)
  ∧ (c.index ≠ -1 → ∀ ofb : Option Int,
        c.dict ofb = .ok ⟨0, c.name, c.description, c.index, c.valueType, c.columnType⟩) := by
  constructor
  · intro h
    constructor <;> simp [Column.dict, h]
  · intro h ofb
    simp [Column.dict, h]

/-- C6 witness: a factory input column (index -1) with and without a
fallback, and an output column with an explicit index and an unused
fallback. -/
theorem column_dict_spec_witness :
    Column.dict (Column.input "a" "d" ⟨"java.lang.Double", none, false⟩) none
      = .error (.valueError "Column a has invalid index (-1)")
  ∧ Column.dict (Column.input "a" "d" ⟨"java.lang.Double", none, false⟩) (some 2)
      = .ok ⟨0, "a", "d", 2, ⟨"java.lang.Double", none, false⟩, "input"⟩
  ∧ Column.dict (Column.output "b" "d" ⟨"java.lang.Double", none, false⟩ 7) (some 2)
      = .ok ⟨0, "b", "d", 7, ⟨"java.lang.Double", none, false⟩, "output"⟩ := by
  refine ⟨?_, ?_, ?_⟩
  · exact ((column_dict_spec (Column.input "a" "d" ⟨"java.lang.Double", none, false⟩) 2).1 rfl).1
  · exact ((column_dict_spec (Column.input "a" "d" ⟨"java.lang.Double", none, false⟩) 2).1 rfl).2
  · exact (column_dict_spec (Column.output "b" "d" ⟨"java.lang.Double", none, false⟩ 7) 2).2
      (by decide) (some 2)

/-- C10: the end accessor property returns the stored start value while
dict() still emits the stored end value under the end key, so the two
disagree whenever start and end differ. -/
theorem anomaly_end_accessor_spec (a : Anomaly) :
    a.endProperty = a.start
  ∧ (Anomaly.dict a).lookup "end" = some a.endField
  ∧ (a.start ≠ a.endField →
      a.endProperty ≠ ((Anomaly.dict a).lookup "end").getD PyVal.pnone) := by
  refine ⟨rfl, rfl, ?_⟩
  intro h
  show a.start ≠ a.endField
  exact h

/-- C10 witness: a concrete anomaly whose start and end differ; the
accessor and the serialized end entry disagree on it. -/
theorem anomaly_end_accessor_witness :
    Anomaly.endProperty ⟨.pstr "s1", .pstr "s2", .pstr "c", .pdict [], .pfloat 1, .pdict []⟩
      ≠ ((Anomaly.dict ⟨.pstr "s1", .pstr "s2", .pstr "c", .pdict [], .pfloat 1, .pdict []⟩).lookup
          "end").getD PyVal.pnone :=
  (anomaly_end_accessor_spec ⟨.pstr "s1", .pstr "s2", .pstr "c", .pdict [], .pfloat 1, .pdict []⟩).2.2
    (by simp)

/-- C3 counterexample: a single declared output column with explicit
index 5 keeps index 5 in the flattened list, not the zero-based sequence
index 0 the claim assigns to the first output column. -/
theorem autoGenIndices_counterexample :
    (autoGenIndices [Column.output "y" "d" ⟨"java.lang.Double", none, false⟩ 5]).map
        (fun ds => ds.map ColumnDict.index) = .ok [5]
  ∧ (Except.ok [5] : Except PyError (List Int)) ≠ .ok [0] := by
  constructor
  · rfl
  · simp

/-- C3 amended: the flattened list is all inputs first then all outputs,
declaration order and names preserved within each role; a column whose
own index is the sentinel -1 receives its zero-based position within its
role (so when every column of a role carries the sentinel, that role gets
exactly the indices 0,1,2,...), while a column with an explicit index
keeps it. -/
theorem autoGenIndices_amended (cols : List Column) :
    autoGenIndices cols = .ok (flattenedColumns cols)
  ∧ (flattenedColumns cols).map ColumnDict.name =
      (inputColumnsOf cols).map Column.name ++ (outputColumnsOf cols).map Column.name
  ∧ ((∀ c ∈ inputColumnsOf cols, c.index = -1) →
      ((inputColumnsOf cols).enum.map (fun p => resolvedDict p.2 p.1)).map ColumnDict.index
        = (List.range (inputColumnsOf cols).length).map Int.ofNat)
  ∧ ((∀ c ∈ outputColumnsOf cols, c.index = -1) →
      ((outputColumnsOf cols).enum.map (fun p => resolvedDict p.2 p.1)).map ColumnDict.index
        = (List.range (outputColumnsOf cols).length).map Int.ofNat) := by
  have hn : ∀ l : List Column,
      (l.enum.map (fun p => resolvedDict p.2 p.1)).map ColumnDict.name = l.map Column.name := by
    intro l
    rw [List.map_map]
    have he : (ColumnDict.name ∘ fun p : Nat × Column => resolvedDict p.2 p.1)
        = (Column.name ∘ Prod.snd) := rfl
    rw [he, ← List.map_map, List.enum_map_snd]
  have hr : ∀ l : List Column, (∀ c ∈ l, c.index = -1) →
      (l.enum.map (fun p => resolvedDict p.2 p.1)).map ColumnDict.index
        = (List.range l.length).map Int.ofNat := by
    intro l h
    rw [List.map_map]
    have hpt : ∀ p ∈ l.enum,
        (ColumnDict.index ∘ fun q : Nat × Column => resolvedDict q.2 q.1) p = Int.ofNat p.1 := by
      intro p hp
      have := h p.2 (mem_enum_snd hp)
      simp [resolvedDict, resolvedIndex, this]
    rw [List.map_congr_left hpt]
    have he : (fun p : Nat × Column => Int.ofNat p.1) = (Int.ofNat ∘ Prod.fst) := rfl
    rw [he, ← List.map_map, List.enum_map_fst]
  refine ⟨autoGenIndices_eq cols, ?_, hr _, hr _⟩
  unfold flattenedColumns
  rw [List.map_append, hn, hn]

/-- C3 amended witness: two factory inputs and one explicit output, with
the sentinel hypotheses discharged by evaluation. -/
theorem autoGenIndices_amended_witness :
    autoGenIndices [Column.input "a" "d" ⟨"java.lang.Double", none, false⟩,
                    Column.input "b" "d" ⟨"java.lang.Double", none, false⟩,
                    Column.output "y" "d" ⟨"java.lang.Double", none, false⟩ 1]
      = .ok (flattenedColumns [Column.input "a" "d" ⟨"java.lang.Double", none, false⟩,
                    Column.input "b" "d" ⟨"java.lang.Double", none, false⟩,
                    Column.output "y" "d" ⟨"java.lang.Double", none, false⟩ 1])
  ∧ ((inputColumnsOf [Column.input "a" "d" ⟨"java.lang.Double", none, false⟩,
                    Column.input "b" "d" ⟨"java.lang.Double", none, false⟩,
                    Column.output "y" "d" ⟨"java.lang.Double", none, false⟩ 1]).enum.map
        (fun p => resolvedDict p.2 p.1)).map ColumnDict.index
      = (List.range (inputColumnsOf [Column.input "a" "d" ⟨"java.lang.Double", none, false⟩,
                    Column.input "b" "d" ⟨"java.lang.Double", none, false⟩,
                    Column.output "y" "d" ⟨"java.lang.Double", none, false⟩ 1]).length).map
          Int.ofNat :=
  ⟨(autoGenIndices_amended _).1,
   (autoGenIndices_amended [Column.input "a" "d" ⟨"java.lang.Double", none, false⟩,
      Column.input "b" "d" ⟨"java.lang.Double", none, false⟩,
      Column.output "y" "d" ⟨"java.lang.Double", none, false⟩ 1]).2.2.1 (by decide)⟩

/-- A well-formed invocation body used to exercise the 200 poll path. -/
def sampleBody : PyVal :=
  .pdict [("invocationId", .pint 7),
          ("task", .pdict [("taskType", .pstr "Forecast")]),
          ("parameters", .plist [])]

/-- C2 (code bug): the anomaly upload serializes the raw Anomaly objects,
not their dicts; the empty detect result is serialized as the empty JSON
list and submitted, but any non-empty result raises TypeError inside
json.dumps before a request is built, so the upload body is never the
list of Anomaly dicts. -/
theorem anomaly_upload_bug (invId : Int) (data : DataFrame)
    (detect : DataFrame → List Anomaly) (a : Anomaly) (rest : List Anomaly) :
    (detect data = [] →
       detectorInvoke invId data detect =
         .ok ⟨"POST", "/invocations/" ++ toString invId ++ "/anomaly-result", .plist []⟩)
  ∧ (detect data = a :: rest →
       detectorInvoke invId data detect = .error .typeError) := by
  constructor
  · intro h
    simp [detectorInvoke, uploadAnomalies, h, jsonDumps, PyVal.jsonable]
  · intro h
    simp [detectorInvoke, uploadAnomalies, h, jsonDumps, PyVal.jsonable, Anomaly.toPyVal]

/-- C2 witness: a detector returning no anomalies still submits (with the
empty list body), while one concrete anomaly makes the serialization
raise. -/
theorem anomaly_upload_bug_witness :
    detectorInvoke 3 ⟨[], []⟩ (fun _ => []) =
      .ok ⟨"POST", "/invocations/3/anomaly-result", .plist []⟩
  ∧ detectorInvoke 3 ⟨[], []⟩
      (fun _ => [⟨.pstr "a", .pstr "b", .pstr "c", .pdict [], .pfloat 1, .pdict []⟩])
      = .error .typeError :=
  ⟨(anomaly_upload_bug 3 ⟨[], []⟩ (fun _ => [])
      ⟨.pstr "a", .pstr "b", .pstr "c", .pdict [], .pfloat 1, .pdict []⟩ []).1 rfl,
   (anomaly_upload_bug 3 ⟨[], []⟩
      (fun _ => [⟨.pstr "a", .pstr "b", .pstr "c", .pdict [], .pfloat 1, .pdict []⟩])
      ⟨.pstr "a", .pstr "b", .pstr "c", .pdict [], .pfloat 1, .pdict []⟩ []).2 rfl⟩

/-- C4: a poll timeout, a 401, a 404 or any other non-success status
skips the cycle without dispatching and without re-registering; a 403
re-runs registration and still dispatches nothing that cycle; a 200
response parsed into an Invocation is dispatched. -/
theorem poll_response_policy (inp : CycleInput) (e : Bool) (r : HttpResponse)
    (inv : Invocation) (s1 s2 : HttpResponse) (ups : List Request) :
    (inp.pollResp = .timeout → runCycle inp e = .ok (e, .skipped false))
  ∧ (inp.pollResp = .response r → r.statusCode = 401 →
       runCycle inp e = .ok (e, .skipped false))
  ∧ (inp.pollResp = .response r → r.statusCode = 404 →
       runCycle inp e = .ok (e, .skipped false))
  ∧ (inp.pollResp = .response r → r.statusCode ≠ 200 → r.statusCode ≠ 401 →
       r.statusCode ≠ 403 → r.statusCode ≠ 404 →
       runCycle inp e = .ok (e, .skipped false))
  ∧ (inp.pollResp = .response r → r.statusCode = 403 →
       runCycle inp e = .ok (register inp.regResp e, .skipped true))
  ∧ (inp.pollResp = .response r → r.statusCode = 200 → parseInvocation r.body = .ok inv →
       inp.statusStartResp = .response s1 → inp.invokeResult = .ok ups →
       inp.statusDoneResp = .response s2 →
       runCycle inp e = .ok (e, .dispatched inv ups)) := by
  refine ⟨?_, ?_, ?_, ?_, ?_, ?_⟩
  · intro h
    simp [runCycle, nextInvocation, h]
  · intro h h401
    simp [runCycle, nextInvocation, h, h401]
  · intro h h404
    simp [runCycle, nextInvocation, h, h404]
  · intro h h200 h401 h403 h404
    simp [runCycle, nextInvocation, h, h200, h401, h403, h404]
  · intro h h403
    simp [runCycle, nextInvocation, h, h403]
  · intro h h200 hparse hs1 hups hs2
    simp [runCycle, nextInvocation, h, h200, hparse, hs1, hups, hs2, netCall]
    rfl

/-- C4 witness: a 404 poll skips, and a 200 poll with a parseable body
dispatches the parsed invocation. -/
theorem poll_response_policy_witness :
    runCycle ⟨false, .response ⟨404, .pnone⟩, .response ⟨0, .pnone⟩, .response ⟨0, .pnone⟩,
        .ok [], .response ⟨0, .pnone⟩⟩ false = .ok (false, .skipped false)
  ∧ runCycle ⟨false, .response ⟨200, sampleBody⟩, .response ⟨0, .pnone⟩, .response ⟨0, .pnone⟩,
        .ok [], .response ⟨0, .pnone⟩⟩ false
      = .ok (false, .dispatched ⟨7, "Forecast", []⟩ []) :=
  ⟨(poll_response_policy _ false ⟨404, .pnone⟩ ⟨7, "Forecast", []⟩ ⟨0, .pnone⟩ ⟨0, .pnone⟩
      []).2.2.1 rfl rfl,
   (poll_response_policy _ false ⟨200, sampleBody⟩ ⟨7, "Forecast", []⟩ ⟨0, .pnone⟩ ⟨0, .pnone⟩
      []).2.2.2.2.2 rfl rfl rfl rfl rfl rfl⟩

/-- C7 counterexample: registration succeeds, a poll returns a work item,
and the in-progress status update times out; the TimeoutError is uncaught
and aborts the loop instead of merely skipping the cycle, contradicting
the claim for timeouts in later operations. -/
theorem later_timeout_counterexample :
    run (.response ⟨200, .pnone⟩)
      [⟨false, .response ⟨200, sampleBody⟩, .response ⟨200, .pnone⟩, .timeout, .ok [],
        .response ⟨200, .pnone⟩⟩]
      = .error .timeoutError
  ∧ (Except.error PyError.timeoutError :
        Except PyError (List CycleOutcome)) ≠ .ok [.skipped false] := by
  constructor
  · rfl
  · intro h
    cases h

/-- C7 amended: a registration timeout is fatal (the flag is set and the
loop runs no poll cycle, so registration is never retried); a timeout on
the poll request itself is logged and only skips the cycle; but a timeout
in an operation after a successful poll (here the in-progress status
update) is uncaught and aborts the loop. -/
theorem transport_timeout_policy (cycles : List CycleInput) (inp : CycleInput) (e : Bool)
    (r0 r : HttpResponse) (inv : Invocation) :
    run .timeout cycles = .ok []
  ∧ register .timeout false = true
  ∧ (inp.pollResp = .timeout → runCycle inp e = .ok (e, .skipped false))
  ∧ (inp.signal = false → inp.pollResp = .response r → r.statusCode = 200 →
       parseInvocation r.body = .ok inv → inp.statusStartResp = .timeout →
       run (.response r0) (inp :: cycles) = .error .timeoutError) := by
  refine ⟨?_, rfl, ?_, ?_⟩
  · cases cycles <;> simp [run, register, runLoop]
  · intro h
    simp [runCycle, nextInvocation, h]
  · intro hsig hpoll h200 hparse hss
    simp [run, register, runLoop, hsig, runCycle, nextInvocation, hpoll, h200, hparse, hss,
      netCall]
    rfl

/-- C7 witness: the registration-timeout conjunct at an empty schedule,
the poll-timeout conjunct, and the fatal later-timeout conjunct, each at
concrete inputs. -/
theorem transport_timeout_policy_witness :
    run .timeout [] = .ok []
  ∧ runCycle ⟨false, .timeout, .response ⟨0, .pnone⟩, .response ⟨0, .pnone⟩, .ok [],
        .response ⟨0, .pnone⟩⟩ false = .ok (false, .skipped false)
  ∧ run (.response ⟨200, .pnone⟩)
      [⟨false, .response ⟨200, sampleBody⟩, .response ⟨0, .pnone⟩, .timeout, .ok [],
        .response ⟨0, .pnone⟩⟩] = .error .timeoutError :=
  ⟨(transport_timeout_policy [] ⟨false, .timeout, .response ⟨0, .pnone⟩, .response ⟨0, .pnone⟩,
      .ok [], .response ⟨0, .pnone⟩⟩ false ⟨200, .pnone⟩ ⟨200, sampleBody⟩
      ⟨7, "Forecast", []⟩).1,
   (transport_timeout_policy [] ⟨false, .timeout, .response ⟨0, .pnone⟩, .response ⟨0, .pnone⟩,
      .ok [], .response ⟨0, .pnone⟩⟩ false ⟨200, .pnone⟩ ⟨200, sampleBody⟩
      ⟨7, "Forecast", []⟩).2.2.1 rfl,
   (transport_timeout_policy [] ⟨false, .response ⟨200, sampleBody⟩, .response ⟨0, .pnone⟩,
      .timeout, .ok [], .response ⟨0, .pnone⟩⟩ false ⟨200, .pnone⟩ ⟨200, sampleBody⟩
      ⟨7, "Forecast", []⟩).2.2.2 rfl rfl rfl rfl rfl⟩

/-- C8: a 500 register response (already registered) leaves the EXIT flag
unchanged and raises nothing; registering twice that way still leaves the
flag unset; the run loop then proceeds to polling exactly as after any
successful registration, and a subsequent 404 poll cycle executes. -/
theorem already_registered_policy (e : Bool) (cycles : List CycleInput)
    (inp : CycleInput) (b1 b2 : PyVal) :
    register (.response ⟨500, b1⟩) e = e
  ∧ register (.response ⟨500, b2⟩) (register (.response ⟨500, b1⟩) false) = false
  ∧ run (.response ⟨500, b1⟩) cycles = runLoop false cycles
  ∧ (inp.signal = false → inp.pollResp = .response ⟨404, b2⟩ →
       run (.response ⟨500, b1⟩) [inp] = .ok [.skipped false]) := by
  refine ⟨rfl, rfl, rfl, ?_⟩
  intro hsig hpoll
  simp [run, register, runLoop, hsig, runCycle, nextInvocation, hpoll]
  rfl

/-- C8 witness: a concrete 500 registration followed by a 404 poll cycle
runs the cycle and terminates nothing. -/
theorem already_registered_policy_witness :
    run (.response ⟨500, .pnone⟩)
      [⟨false, .response ⟨404, .pnone⟩, .response ⟨0, .pnone⟩, .response ⟨0, .pnone⟩, .ok [],
        .response ⟨0, .pnone⟩⟩] = .ok [.skipped false] :=
  (already_registered_policy false []
    ⟨false, .response ⟨404, .pnone⟩, .response ⟨0, .pnone⟩, .response ⟨0, .pnone⟩, .ok [],
      .response ⟨0, .pnone⟩⟩ .pnone .pnone).2.2.2 rfl rfl

/-- Binding a successful Except value applies the continuation. -/
theorem ok_bind {α β : Type} (a : α) (k : α → Except PyError β) :
    (Except.ok a >>= k) = k a := rfl

/-- A list value is serializable exactly when all its elements are. -/
theorem jsonable_plist (xs : List PyVal) :
    (PyVal.plist xs).jsonable = xs.all PyVal.jsonable := by
  induction xs with
  | nil => simp [PyVal.jsonable]
  | cons x t ih => simp [PyVal.jsonable, ih]

/-- Serializing a Column with no fallback succeeds with the column's own
record whenever the own index is set. -/
theorem Column.dict_of_ne (c : Column) (ofb : Option Int) (h : c.index ≠ -1) :
    c.dict ofb = .ok ⟨0, c.name, c.description, c.index, c.valueType, c.columnType⟩ := by
  simp [Column.dict, h]

/-- The wire form of a column record is always JSON-serializable. -/
theorem columnDict_toPyVal_jsonable (d : ColumnDict) :
    (ColumnDict.toPyVal d).jsonable = true := by
  cases h : d.valueType.format <;>
    simp [ColumnDict.toPyVal, ValueType.toPyVal, PyVal.jsonable, h]

/-- A stringified data row is always JSON-serializable. -/
theorem stringRow_jsonable (row : List PyVal) :
    (PyVal.plist (row.map (fun e => PyVal.pstr (pyStr e)))).jsonable = true := by
  rw [jsonable_plist]
  rw [List.all_eq_true]
  intro x hx
  obtain ⟨e, _, rfl⟩ := List.mem_map.mp hx
  simp [PyVal.jsonable]

/-- The data-sample payload is always JSON-serializable. -/
theorem samplePayload_jsonable (cds : List ColumnDict) (rows : List (List PyVal)) :
    (PyVal.pdict
      [("columns", .plist (cds.map ColumnDict.toPyVal)),
       ("data", .plist (rows.map (fun row =>
          PyVal.plist (row.map (fun e => PyVal.pstr (pyStr e)))))),
       ("errorFlag", .pbool false)]).jsonable = true := by
  simp only [PyVal.jsonable, jsonable_plist, Bool.and_true, Bool.and_eq_true,
    List.all_eq_true]
  constructor
  · intro x hx
    obtain ⟨d, _, rfl⟩ := List.mem_map.mp hx
    exact columnDict_toPyVal_jsonable d
  · intro x hx
    obtain ⟨row, _, rfl⟩ := List.mem_map.mp hx
    exact stringRow_jsonable row

/-- C5: an Import invocation tagged IMPORT_SAMPLE runs the sample hook
and uploads its DataSample serialized as the column records plus the data
rows with every cell stringified and an errorFlag of false; any other tag
runs the import hook and uploads the returned table as a time series only
when it is non-empty (an empty table uploads nothing). -/
theorem import_invoke_spec (inv : Invocation)
    (runSample : List InvocationParam → DataSample)
    (runImport : List InvocationParam → DataFrame) (cols : List Column) :
    (inv.taskType = "IMPORT_SAMPLE" →
       (∀ c ∈ (runSample inv.parameters).columns, c.index ≠ -1) →
       importInvoke inv runSample runImport cols =
         .ok [⟨"POST", "/invocations/" ++ toString inv.invocationId ++ "/data-sample",
               .pdict [("columns", .plist (((runSample inv.parameters).columns).map (fun c =>
                          ColumnDict.toPyVal
                            ⟨0, c.name, c.description, c.index, c.valueType, c.columnType⟩))),
                       ("data", .plist ((runSample inv.parameters).data.rows.map (fun row =>
                          PyVal.plist (row.map (fun e => PyVal.pstr (pyStr e)))))),
                       ("errorFlag", .pbool false)]⟩])
  ∧ (inv.taskType ≠ "IMPORT_SAMPLE" → (runImport inv.parameters).empty = true →
       importInvoke inv runSample runImport cols = .ok [])
  ∧ (inv.taskType ≠ "IMPORT_SAMPLE" → (runImport inv.parameters).empty = false →
       importInvoke inv runSample runImport cols =
         (uploadTimeseriesData cols (runImport inv.parameters) inv.invocationId).map
           (fun r => [r])) := by
  refine ⟨?_, ?_, ?_⟩
  · intro htask hidx
    have hcols := mapM_ok (fun c : Column => c.dict none)
      (fun c : Column => (⟨0, c.name, c.description, c.index, c.valueType, c.columnType⟩ :
        ColumnDict))
      (runSample inv.parameters).columns
      (fun c hc => Column.dict_of_ne c none (hidx c hc))
    have hjson := samplePayload_jsonable
      (((runSample inv.parameters).columns).map (fun c =>
        (⟨0, c.name, c.description, c.index, c.valueType, c.columnType⟩ : ColumnDict)))
      ((runSample inv.parameters).data.rows)
    rw [List.map_map] at hjson
    unfold importInvoke
    rw [if_pos htask]
    unfold uploadDataSample
    rw [hcols, ok_bind]
    simp only [jsonDumps, List.map_map]
    rw [if_pos hjson]
    rfl
  · intro htask hempty
    unfold importInvoke
    rw [if_neg htask, hempty]
    rfl
  · intro htask hempty
    unfold importInvoke
    rw [if_neg htask, hempty]
    rfl

/-- C5 witness: an IMPORT_SAMPLE invocation with a one-column one-row
sample, and a non-sample invocation returning an empty table. -/
theorem import_invoke_spec_witness :
    importInvoke ⟨5, "IMPORT_SAMPLE", []⟩
      (fun _ => ⟨[Column.output "t" "d" ⟨"java.lang.Long", none, false⟩ 0],
                 ⟨["t"], [[PyVal.pint 1]]⟩⟩)
      (fun _ => ⟨[], []⟩) []
      = .ok [⟨"POST", "/invocations/5/data-sample",
              .pdict [("columns", .plist [ColumnDict.toPyVal
                         ⟨0, "t", "d", 0, ⟨"java.lang.Long", none, false⟩, "output"⟩]),
                      ("data", .plist [.plist [.pstr "1"]]),
                      ("errorFlag", .pbool false)]⟩]
  ∧ importInvoke ⟨5, "IMPORT", []⟩
      (fun _ => ⟨[Column.output "t" "d" ⟨"java.lang.Long", none, false⟩ 0],
                 ⟨["t"], [[PyVal.pint 1]]⟩⟩)
      (fun _ => ⟨[], []⟩) []
      = .ok [] := by
  constructor
  · exact (import_invoke_spec ⟨5, "IMPORT_SAMPLE", []⟩
      (fun _ => ⟨[Column.output "t" "d" ⟨"java.lang.Long", none, false⟩ 0],
                 ⟨["t"], [[PyVal.pint 1]]⟩⟩)
      (fun _ => ⟨[], []⟩) []).1 rfl (by decide)
  · exact (import_invoke_spec ⟨5, "IMPORT", []⟩
      (fun _ => ⟨[Column.output "t" "d" ⟨"java.lang.Long", none, false⟩ 0],
                 ⟨["t"], [[PyVal.pint 1]]⟩⟩)
      (fun _ => ⟨[], []⟩) []).2.1 (by decide) rfl

/-- The cell a named column denotes in a row: the total
specification-side lookup at the position of the name in the column
list. -/
def specCell (colNames : List String) (row : List PyVal) (name : String) : PyVal :=
  (row.get? (colNames.findIdx (fun n => n = name))).getD .pnone

/-- The output columns the series upload keeps, per the amended
specification: the output columns with their resolved indices, in
declaration order, restricted to strictly positive resolved indices. -/
def specKeptOutputs (cols : List Column) : List (Int × String) :=
  ((outputColumnsOf cols).enum.map (fun p => (resolvedIndex p.2 p.1, p.2.name))).filter
    (fun q => q.1 > 0)

/-- The series records the upload builds when no ds column exists: one
record per row in row order, the raw first cell as the time, and one
values entry per kept output column, keyed by its resolved index rendered
as a string and mapped to that row's cell for the column's name. -/
def specSeriesRecords (cols : List Column) (df : DataFrame) : List PyVal :=
  df.rows.map (fun row =>
    PyVal.pdict [("time", (row.get? 0).getD .pnone),
                 ("values", PyVal.pdict ((specKeptOutputs cols).map (fun q =>
                    (toString q.1, specCell df.colNames row q.2))))])

/-- When the name occurs among the column names and the row is long
enough, the fallible row lookup succeeds with the specification-side
cell. -/
theorem rowCell_ok (colNames : List String) (row : List PyVal) (name : String)
    (hmem : name ∈ colNames) (hlen : colNames.length ≤ row.length) :
    rowCell colNames row name = .ok (specCell colNames row name) := by
  have hex : ∃ x, x ∈ colNames ∧ (fun n => decide (n = name)) x = true :=
    ⟨name, hmem, by simp⟩
  have hfi := List.findIdx?_eq_some_of_exists hex
  have hlt : colNames.findIdx (fun n => decide (n = name)) < colNames.length :=
    List.findIdx_lt_length_of_exists ⟨name, hmem, by simp⟩
  have hrow : colNames.findIdx (fun n => decide (n = name)) < row.length :=
    Nat.lt_of_lt_of_le hlt hlen
  unfold rowCell specCell
  rw [hfi]
  show (match row.get? (List.findIdx (fun n => decide (n = name)) colNames) with
        | some v => Except.ok v
        | none => Except.error PyError.keyError)
      = Except.ok ((row.get? (List.findIdx (fun n => decide (n = name)) colNames)).getD
          PyVal.pnone)
  rw [List.get?_eq_get hrow]
  rfl

/-- With a non-empty declared column list, the kept series columns are
exactly the specification-side kept outputs, paired as index value and
name. -/
theorem seriesColumns_eq (cols : List Column) (df : DataFrame) (h : cols ≠ []) :
    seriesColumns cols df =
      .ok ((specKeptOutputs cols).map (fun q => (PyVal.pint q.1, q.2))) := by
  have hlen : 0 < cols.length := List.length_pos.mpr h
  unfold seriesColumns
  rw [if_pos hlen, autoGenIndices_eq, ok_bind]
  show Except.ok _ = Except.ok _
  refine congrArg Except.ok ?_
  unfold flattenedColumns specKeptOutputs
  rw [List.filter_append]
  have hin : ((inputColumnsOf cols).enum.map (fun p => resolvedDict p.2 p.1)).filter
      (fun x => x.columnType = "output" && x.index > 0) = [] := by
    rw [List.filter_map, List.filter_eq_nil_iff.mpr, List.map_nil]
    intro p hp
    have hct : p.2.columnType = "input" := by
      have := List.mem_filter.mp (mem_enum_snd hp)
      simpa [inputColumnsOf, List.mem_filter] using this.2
    simp [resolvedDict, Function.comp, hct]
  rw [hin, List.nil_append]
  rw [List.filter_map, List.map_map, List.filter_map, List.map_map]
  have hp : ∀ p ∈ (outputColumnsOf cols).enum,
      ((fun x : ColumnDict => decide (x.columnType = "output") && decide (x.index > 0)) ∘
        (fun p : Nat × Column => resolvedDict p.2 p.1)) p
      = ((fun q : Int × String => decide (q.1 > 0)) ∘
        (fun p : Nat × Column => (resolvedIndex p.2 p.1, p.2.name))) p := by
    intro p hp
    have hct : p.2.columnType = "output" := by
      have := List.mem_filter.mp (mem_enum_snd hp)
      simpa [outputColumnsOf, List.mem_filter] using this.2
    simp [resolvedDict, Function.comp, hct]
  rw [List.filter_congr hp]
  rfl

/-- With a non-empty declared column list, no ds column, and rows at
least as long as the (non-empty) column-name list covering every kept
output name, the built records are exactly the specified records. -/
theorem buildSeriesRecords_eq (cols : List Column) (df : DataFrame)
    (hc : cols ≠ [])
    (hds : df.colNames.contains "ds" = false)
    (hn : df.colNames ≠ [])
    (hlen : ∀ row ∈ df.rows, df.colNames.length ≤ row.length)
    (hnames : ∀ q ∈ specKeptOutputs cols, q.2 ∈ df.colNames) :
    buildSeriesRecords cols df = .ok (specSeriesRecords cols df) := by
  unfold buildSeriesRecords
  rw [seriesColumns_eq cols df hc, ok_bind]
  unfold specSeriesRecords
  apply mapM_ok
  intro row hrow
  have hpos : 0 < row.length :=
    Nat.lt_of_lt_of_le (List.length_pos.mpr hn) (hlen row hrow)
  have hv : row.get? 0 = some (row.get ⟨0, hpos⟩) := List.get?_eq_get hpos
  have hvals := mapM_ok
    (fun kv : PyVal × String => do
      let v ← rowCell df.colNames row kv.2
      return (pyStr kv.1, v))
    (fun kv : PyVal × String => (pyStr kv.1, specCell df.colNames row kv.2))
    ((specKeptOutputs cols).map (fun q => (PyVal.pint q.1, q.2)))
    (by
      intro kv hkv
      obtain ⟨q, hq, rfl⟩ := List.mem_map.mp hkv
      simp only [rowCell_ok df.colNames row q.2 (hnames q hq) (hlen row hrow)]
      rfl)
  simp only [hds, Bool.false_eq_true, if_false, hv, hvals, ok_bind]
  rw [List.map_map]
  simp only [hv, Option.getD_some]
  rfl

/-- C1 counterexample: a worker declaring a single output column at
index 0 (as the repository's example worker declares its time column)
gets an empty values mapping for every row, not one entry per output
column: the record built for the one-row table carries values with no
entry, while the claim requires the entry mapping key 0 to the row's
value. -/
theorem series_upload_counterexample :
    uploadTimeseriesData [Column.output "y" "d" ⟨"java.lang.Double", none, false⟩ 0]
      ⟨["t", "y"], [[.pint 1, .pint 2]]⟩ 4
      = .ok ⟨"POST", "/invocations/4/series-result",
             .plist [.pdict [("time", .pint 1), ("values", .pdict [])]]⟩
  ∧ PyVal.pdict [] ≠ PyVal.pdict [("0", .pint 2)] := by
  constructor
  · have hb := buildSeriesRecords_eq
      [Column.output "y" "d" ⟨"java.lang.Double", none, false⟩ 0]
      ⟨["t", "y"], [[.pint 1, .pint 2]]⟩
      (by decide) (by decide) (by decide)
      (by intro row hrow; simp at hrow; simp [hrow])
      (by intro q hq; simp [specKeptOutputs, outputColumnsOf, resolvedIndex,
            Column.output, List.enum, List.enumFrom] at hq)
    unfold uploadTimeseriesData
    rw [hb, ok_bind]
    have hs : specSeriesRecords [Column.output "y" "d" ⟨"java.lang.Double", none, false⟩ 0]
        ⟨["t", "y"], [[.pint 1, .pint 2]]⟩
        = [.pdict [("time", .pint 1), ("values", .pdict [])]] := by
      simp [specSeriesRecords, specKeptOutputs, outputColumnsOf, resolvedIndex,
        Column.output, List.enum, List.enumFrom]
    rw [hs]
    simp [jsonDumps, PyVal.jsonable]
    rfl
  · intro h
    simp at h

/-- C1 amended: with a non-empty declared column list, for each fetched
row (no ds column present, rows covering the columns) the upload builds a
values mapping with one entry per output column whose resolved index is
strictly positive, keyed by that index rendered as a string and mapped to
that row's value for that column (output columns with resolved index 0,
such as a declared time column, are omitted), and submits the full
ordered list of time/values records, one per row in row order, in one
request. -/
theorem series_upload_amended (cols : List Column) (df : DataFrame) (invId : Int)
    (hc : cols ≠ [])
    (hds : df.colNames.contains "ds" = false)
    (hn : df.colNames ≠ [])
    (hlen : ∀ row ∈ df.rows, df.colNames.length ≤ row.length)
    (hnames : ∀ q ∈ specKeptOutputs cols, q.2 ∈ df.colNames)
    (hjson : (PyVal.plist (specSeriesRecords cols df)).jsonable = true) :
    buildSeriesRecords cols df = .ok (specSeriesRecords cols df)
  ∧ uploadTimeseriesData cols df invId =
      .ok ⟨"POST", "/invocations/" ++ toString invId ++ "/series-result",
           .plist (specSeriesRecords cols df)⟩ := by
  have hb := buildSeriesRecords_eq cols df hc hds hn hlen hnames
  refine ⟨hb, ?_⟩
  unfold uploadTimeseriesData
  rw [hb, ok_bind]
  simp only [jsonDumps]
  rw [if_pos hjson]
  rfl

/-- C1 witness: a worker declaring a time column at output index 0 and a
value column at output index 1; only the index-1 column contributes a
values entry, keyed by the string 1. -/
theorem series_upload_amended_witness :
    uploadTimeseriesData
      [Column.output "t" "d" ⟨"java.time.Instant", none, false⟩ 0,
       Column.output "y" "d" ⟨"java.lang.Double", none, false⟩ 1]
      ⟨["t", "y"], [[.pint 10, .pint 2], [.pint 11, .pint 3]]⟩ 9
      = .ok ⟨"POST", "/invocations/9/series-result",
             .plist (specSeriesRecords
               [Column.output "t" "d" ⟨"java.time.Instant", none, false⟩ 0,
                Column.output "y" "d" ⟨"java.lang.Double", none, false⟩ 1]
               ⟨["t", "y"], [[.pint 10, .pint 2], [.pint 11, .pint 3]]⟩)⟩ :=
  (series_upload_amended
    [Column.output "t" "d" ⟨"java.time.Instant", none, false⟩ 0,
     Column.output "y" "d" ⟨"java.lang.Double", none, false⟩ 1]
    ⟨["t", "y"], [[.pint 10, .pint 2], [.pint 11, .pint 3]]⟩ 9
    (by decide) (by decide) (by decide)
    (by intro row hrow; simp at hrow; rcases hrow with h | h <;> simp [h])
    (by
      intro q hq
      simp [specKeptOutputs, outputColumnsOf, resolvedIndex, Column.output,
        List.enum, List.enumFrom] at hq
      simp [hq])
    (by
      simp [specSeriesRecords, specKeptOutputs, outputColumnsOf, resolvedIndex,
        Column.output, List.enum, List.enumFrom, specCell, jsonable_plist,
        PyVal.jsonable, List.findIdx_cons, Option.getD_some])).2

end QuantaWorker
